import Mathlib

/-!
# A formal model of the av-scenechange scene-cut detector

This file embeds the core of `src/scenechange/mod.rs` and
`src/scenechange/fast.rs` into Lean and proves properties about it.

Modelling conventions:

* A pixel `Plane` is a flat list of luma sample values; a `Frame` is its luma
  plane (`frame.planes[0]`), the only plane the detector ever reads.
* `f64` cost values are modelled as `ℚ`.  Every scalar the detector computes is
  an exact small-magnitude rational (a `u64` SAD divided by a pixel count, or a
  constant times the bit depth divided by 8), so rational arithmetic coincides
  with the `f64` arithmetic at every comparison the code performs.
* `usize`/`u64` arithmetic is `Nat` arithmetic; a subtraction that can
  underflow is modelled with `checked_sub`, and a panicking operation
  (underflow, index out of bounds) makes the surrounding function return
  `none`.  (In release builds the wrapped value immediately drives an
  out-of-bounds slice index at the same call, so `none` models the panic in
  either build profile.)
* The external downscale transforms (`Plane::downscale::<SCALE>` and
  `Plane::downscale_in_place::<SCALE>` from the `v_frame` crate) are an
  out-of-scope capability; the development is parameterised by a family
  `dsf : Nat → Plane → Plane` giving the transform for each factor.  The
  allocating and the in-place variant compute the same plane, so one function
  models both.
* The CPU feature level only selects among implementations of the difference
  primitive that all return the same value, so it is dropped from the state.
-/

namespace AvSc

/-- A pixel plane: luma samples in row-major order. -/
abbrev Plane := List Nat

/-- A frame, reduced to its luma plane (`planes[0]`), the only data the
detector reads. -/
abbrev Frame := Plane

/-- Modelled from the spec: the external difference primitive
`sad(plane_a, plane_b, cpu_tier) -> u64` (the `sad_plane` module is not part
of the provided sources).  It returns the accumulated sum of absolute
differences between two equally-shaped pixel planes; the CPU tier only picks
an implementation, never the value, so it is omitted. -/
def sad_plane (plane1 plane2 : Plane) : Nat :=
  (List.zip plane1 plane2).foldl (fun acc q => acc + ((q.1 - q.2) + (q.2 - q.1))) 0

/-- `FAST_THRESHOLD` from `fast.rs`: base scene-cut threshold. -/
def FAST_THRESHOLD : ℚ := 18

/-- `IMP_BLOCK_DIFF_THRESHOLD` from `mod.rs`. -/
def IMP_BLOCK_DIFF_THRESHOLD : ℚ := 7

/-- `fast_idiv` from `mod.rs`: `n >> d.trailing_zeros()`.  For the power-of-two
divisors the detector uses, `trailing_zeros` equals `log2`. -/
def fast_idiv (n d : Nat) : Nat := n >>> Nat.log2 d

/-- `ScaleFunction` from `mod.rs`.  The source stores the allocating and the
in-place downscale separately; both compute the same transform, modelled by
the single field `downscale`. -/
structure ScaleFunction where
  downscale : Plane → Plane
  factor : Nat

/-- `detect_scale_factor` from `fast.rs`, parameterised by the external family
`dsf` of downscale transforms (`ScaleFunction::from_scale::<SCALE>`). -/
def detect_scale_factor (dsf : Nat → Plane → Plane) (max_width max_height : Nat) :
    Option ScaleFunction :=
  let small_edge := min max_height max_width
  if small_edge ≤ 240 then none
  else if small_edge ≤ 480 then some ⟨dsf 2, 2⟩
  else if small_edge ≤ 720 then some ⟨dsf 4, 4⟩
  else if small_edge ≤ 1080 then some ⟨dsf 8, 8⟩
  else if small_edge ≤ 1600 then some ⟨dsf 16, 16⟩
  else some ⟨dsf 32, 32⟩

/-- `ScenecutResult` from `mod.rs`. -/
structure ScenecutResult where
  imp_block_cost : ℚ
  backward_adjusted_cost : ℚ
  forward_adjusted_cost : ℚ
  threshold : ℚ
deriving DecidableEq

/-- `SceneChangeDetector` from `mod.rs`.  `score_deque` is newest-first
(the source inserts at index 0 and pops from the back). -/
structure SceneChangeDetector where
  threshold : ℚ
  scale_func : Option ScaleFunction
  downscaled_frame_buffer : Option ((Plane × Plane) × Bool)
  frame_ref_buffer : Option (Frame × Frame)
  lookahead_offset : Nat
  deque_offset : Nat
  score_deque : List ScenecutResult
  pixels : Nat
  bit_depth : Nat
  min_kf_interval : Nat
  max_kf_interval : Nat

/-- `SceneChangeDetector::new` from `mod.rs`. -/
def SceneChangeDetector.new (dsf : Nat → Plane → Plane)
    (bit_depth lookahead_distance max_frame_width max_frame_height : Nat)
    (min_kf_interval max_kf_interval : Nat) : SceneChangeDetector :=
  let scale_func := detect_scale_factor dsf max_frame_width max_frame_height
  -- Set lookahead offset to 5 if normal lookahead available
  let lookahead_offset := if 5 ≤ lookahead_distance then 5 else 0
  let factor := match scale_func with
    | none => 1
    | some x => x.factor
  { threshold := FAST_THRESHOLD * (bit_depth : ℚ) / 8
    scale_func := scale_func
    downscaled_frame_buffer := none
    frame_ref_buffer := none
    lookahead_offset := lookahead_offset
    deque_offset := lookahead_offset
    score_deque := []
    pixels := fast_idiv max_frame_height factor * fast_idiv max_frame_width factor
    bit_depth := bit_depth
    min_kf_interval := min_kf_interval
    max_kf_interval := max_kf_interval }

/-- `delta_in_planes` from `fast.rs`: average SAD per pixel. -/
def SceneChangeDetector.delta_in_planes (s : SceneChangeDetector)
    (plane1 plane2 : Plane) : ℚ :=
  (sad_plane plane1 plane2 : ℚ) / (s.pixels : ℚ)

/-- `fast_scenecut` from `fast.rs`.  The source writes the rotated/refreshed
buffer back into the state and immediately re-reads it (the `None` re-read
branch is `debug_unreachable`); the model binds the freshly written buffer
directly, which is the same value. -/
def SceneChangeDetector.fast_scenecut (s : SceneChangeDetector)
    (frame1 frame2 : Frame) : ScenecutResult × SceneChangeDetector :=
  match s.scale_func with
  | some scale_func =>
    -- downscale both frames for faster comparison
    let fb : Plane × Plane :=
      match s.downscaled_frame_buffer with
      | some (frame_buffer, is_initialized) =>
        if is_initialized then
          -- swap(0, 1), then downscale_in_place frame2 into slot 1
          (frame_buffer.2, scale_func.downscale frame2)
        else
          (scale_func.downscale frame1, scale_func.downscale frame2)
      | none =>
        (scale_func.downscale frame1, scale_func.downscale frame2)
    let s' := { s with downscaled_frame_buffer := some (fb, true) }
    let delta := s'.delta_in_planes fb.1 fb.2
    ({ imp_block_cost := delta
       backward_adjusted_cost := delta
       forward_adjusted_cost := delta
       threshold := s'.threshold }, s')
  | none =>
    let fb : Frame × Frame :=
      match s.frame_ref_buffer with
      | some frame_buffer =>
        -- swap(0, 1), then slot 1 := frame2
        (frame_buffer.2, frame2)
      | none => (frame1, frame2)
    let s' := { s with frame_ref_buffer := some fb }
    let delta := s'.delta_in_planes fb.1 fb.2
    ({ imp_block_cost := delta
       backward_adjusted_cost := delta
       forward_adjusted_cost := delta
       threshold := s'.threshold }, s')

/-- `run_comparison` from `mod.rs`: compare two frames, insert the result at
the front of the score deque. -/
def SceneChangeDetector.run_comparison (s : SceneChangeDetector)
    (frame1 frame2 : Frame) : SceneChangeDetector :=
  let res := s.fast_scenecut frame1 frame2
  { res.2 with score_deque := res.1 :: res.2.score_deque }

/-- Checked `Nat` subtraction: `none` models the Rust underflow panic. -/
def checked_sub (a b : Nat) : Option Nat :=
  if b ≤ a then some (a - b) else none

/-- Helper for `initialize_score_deque`: run `n` comparisons starting at
window index `x` (`for x in 0..init_len`). -/
def init_score_aux (frame_set : List Frame) :
    Nat → Nat → SceneChangeDetector → Option SceneChangeDetector
  | _, 0, s => some s
  | x, n + 1, s =>
    match frame_set.get? x, frame_set.get? (x + 1) with
    | some f1, some f2 => init_score_aux frame_set (x + 1) n (s.run_comparison f1 f2)
    | _, _ => none

/-- `initialize_score_deque` from `mod.rs`. -/
def SceneChangeDetector.initialize_score_deque (s : SceneChangeDetector)
    (frame_set : List Frame) (init_len : Nat) : Option SceneChangeDetector :=
  init_score_aux frame_set 0 init_len s

/-- The newest-first "backward" slice `score_deque[deque_offset + 1..]`
(entries older than the decision frame). -/
def SceneChangeDetector.back_deque (s : SceneChangeDetector) : List ScenecutResult :=
  s.score_deque.drop (s.deque_offset + 1)

/-- The newest-first "forward" slice `score_deque[..deque_offset]`
(entries newer than the decision frame). -/
def SceneChangeDetector.forward_deque (s : SceneChangeDetector) : List ScenecutResult :=
  s.score_deque.take s.deque_offset

/-- Count of backward entries whose backward-adjusted cost reaches their own
threshold. -/
def SceneChangeDetector.back_over_tr_count (s : SceneChangeDetector) : Nat :=
  (s.back_deque.filter fun result =>
    decide (result.threshold ≤ result.backward_adjusted_cost)).length

/-- Count of forward entries whose forward-adjusted cost reaches their own
threshold. -/
def SceneChangeDetector.forward_over_tr_count (s : SceneChangeDetector) : Nat :=
  (s.forward_deque.filter fun result =>
    decide (result.threshold ≤ result.forward_adjusted_cost)).length

/-- `forward_deque[0].forward_adjusted_cost >= forward_deque[0].threshold`,
evaluated only under `forward_over_tr_count == 1` in the source, which
guarantees the slice is nonempty; an empty slice yields `false`. -/
def front_over_forward (l : List ScenecutResult) : Bool :=
  match l.head? with
  | some result => decide (result.threshold ≤ result.forward_adjusted_cost)
  | none => false

/-- The importance-block threshold computed inside `adaptive_scenecut`. -/
def SceneChangeDetector.imp_block_threshold (s : SceneChangeDetector) : ℚ :=
  IMP_BLOCK_DIFF_THRESHOLD * (s.bit_depth : ℚ) / 8

/-- `adaptive_scenecut` from `mod.rs`.  `none` models the index panic when
`deque_offset` is outside the score deque. -/
def SceneChangeDetector.adaptive_scenecut (s : SceneChangeDetector) : Option Bool :=
  match s.score_deque.get? s.deque_offset with
  | none => none
  | some score =>
    -- require importance-block evidence at the decision entry or older
    if ((s.score_deque.drop s.deque_offset).any fun result =>
        decide (s.imp_block_threshold ≤ result.imp_block_cost)) = false then
      some false
    else
      let cost := score.forward_adjusted_cost
      if score.threshold ≤ cost then
        -- scenecut after a flash
        if s.forward_over_tr_count = 0 ∧ 2 ≤ s.back_over_tr_count then
          some true
        -- scenecut before a flash
        else if s.back_over_tr_count = 0 ∧ s.forward_over_tr_count = 1 ∧
            front_over_forward s.forward_deque = true then
          some true
        -- ambiguous flash pattern
        else if s.back_over_tr_count ≠ 0 ∨ s.forward_over_tr_count ≠ 0 then
          some false
        else
          some (decide (score.threshold ≤ cost))
      else
        some (decide (score.threshold ≤ cost))

/-- `handle_min_max_intervals` from `mod.rs`. -/
def SceneChangeDetector.handle_min_max_intervals (s : SceneChangeDetector)
    (distance : Nat) : Option Bool :=
  if distance < s.min_kf_interval then some false
  else if s.max_kf_interval ≤ distance then some true
  else none

/-- The score-deque initialization step of `analyze_next_frame`
(`mod.rs` lines 167–178). -/
def SceneChangeDetector.init_phase (s : SceneChangeDetector)
    (frame_set : List Frame) : Option SceneChangeDetector :=
  if 0 < s.deque_offset ∧ s.deque_offset + 1 < frame_set.length ∧ s.score_deque = [] then
    s.initialize_score_deque frame_set s.deque_offset
  else if s.score_deque = [] then
    match s.initialize_score_deque frame_set (frame_set.length - 1) with
    | some s1 =>
      match checked_sub frame_set.length 2 with
      | some d => some { s1 with deque_offset := d }
      | none => none
    | none => none
  else some s

/-- The per-call comparison-or-shrink step of `analyze_next_frame`
(`mod.rs` lines 179–188): compare the two frames at the decision offset, or
decrement the offset when the window has run out of forward frames. -/
def SceneChangeDetector.compare_or_shrink (s : SceneChangeDetector)
    (frame_set : List Frame) : Option SceneChangeDetector :=
  if s.deque_offset + 1 < frame_set.length then
    match frame_set.get? s.deque_offset, frame_set.get? (s.deque_offset + 1) with
    | some f1, some f2 => some (s.run_comparison f1 f2)
    | _, _ => none
  else
    match checked_sub s.deque_offset 1 with
    | some d => some { s with deque_offset := d }
    | none => none

/-- Both state-update steps of `analyze_next_frame` in order. -/
def SceneChangeDetector.update_state (s : SceneChangeDetector)
    (frame_set : List Frame) : Option SceneChangeDetector :=
  match s.init_phase frame_set with
  | some s1 => s1.compare_or_shrink frame_set
  | none => none

/-- `analyze_next_frame` from `mod.rs`.  Returns the scene-cut decision and
the updated detector, or `none` when the call panics. -/
def SceneChangeDetector.analyze_next_frame (s : SceneChangeDetector)
    (frame_set : List Frame) (input_frameno previous_keyframe : Nat) :
    Option (Bool × SceneChangeDetector) :=
  match checked_sub input_frameno previous_keyframe with
  | none => none
  | some distance =>
    if frame_set.length ≤ s.lookahead_offset then
      -- Don't insert keyframes in the last few frames of the video
      some (false, s)
    else
      match s.update_state frame_set with
      | none => none
      | some s1 =>
        match s1.adaptive_scenecut with
        | none => none
        | some sc =>
          let scenecut := (s1.handle_min_max_intervals distance).getD sc
          -- Keep score deque of 5 backward frames plus the lookahead offset
          let s2 := if 5 + s1.lookahead_offset < s1.score_deque.length then
              { s1 with score_deque := s1.score_deque.dropLast }
            else s1
          some (scenecut, s2)

/-- A concrete instantiation of the external downscale-transform family, used
to state closed theorems about concrete detector runs (the development's
universally quantified theorems hold for every such family). -/
def dsfId : Nat → Plane → Plane := fun _ p => p

/-- The downscale factor implied by the policy, with `none` read as factor 1
(mirrors `scale_func.as_ref().map_or(1, |x| x.factor)` in `new`). -/
def scale_factor_value (dsf : Nat → Plane → Plane) (w h : Nat) : Nat :=
  match detect_scale_factor dsf w h with
  | none => 1
  | some sf => sf.factor

/-- The downscale factor as a function of the smaller edge alone. -/
def edge_factor (e : Nat) : Nat :=
  if e ≤ 240 then 1
  else if e ≤ 480 then 2
  else if e ≤ 720 then 4
  else if e ≤ 1080 then 8
  else if e ≤ 1600 then 16
  else 32

/-- The pair of planes `fast_scenecut` hands to the difference primitive,
read off the post-call state: the two downscale scratch slots when a scale
function is configured, the two retained full-resolution luma planes
otherwise. -/
def compared_planes (s : SceneChangeDetector) : Plane × Plane :=
  match s.scale_func with
  | some _ =>
    match s.downscaled_frame_buffer with
    | some (fb, _) => fb
    | none => ([], [])
  | none =>
    match s.frame_ref_buffer with
    | some fb => fb
    | none => ([], [])

/-- Detector states reachable from `s0` by calls to `analyze_next_frame` that
return normally. -/
inductive Reaches (s0 : SceneChangeDetector) : SceneChangeDetector → Prop
  | refl : Reaches s0 s0
  | step {s s' : SceneChangeDetector} {fs : List Frame} {fn pk : Nat} {b : Bool} :
      Reaches s0 s → s.analyze_next_frame fs fn pk = some (b, s') → Reaches s0 s'

/-- Inductive invariant of detectors built with `lookahead_distance ≥ 5`:
cost history bounded by 10, decision offset bounded by 5, and the offset is
still at its initial value while the history is empty. -/
def Inv (s : SceneChangeDetector) : Prop :=
  s.lookahead_offset = 5 ∧ s.deque_offset ≤ 5 ∧ s.score_deque.length ≤ 10 ∧
    (s.score_deque = [] → s.deque_offset = 5)

/-- A detector state whose only importance-block evidence sits on the OLDER
side of the decision entry (at index `deque_offset + 1`), while the decision
entry itself crosses its cost threshold. -/
def cexStateC4 : SceneChangeDetector :=
  { threshold := 18
    scale_func := none
    downscaled_frame_buffer := none
    frame_ref_buffer := none
    lookahead_offset := 0
    deque_offset := 1
    score_deque :=
      [{ imp_block_cost := 0, backward_adjusted_cost := 0,
         forward_adjusted_cost := 0, threshold := 1 },
       { imp_block_cost := 0, backward_adjusted_cost := 0,
         forward_adjusted_cost := 5, threshold := 1 },
       { imp_block_cost := 100, backward_adjusted_cost := 0,
         forward_adjusted_cost := 0, threshold := 1 }]
    pixels := 1
    bit_depth := 8
    min_kf_interval := 0
    max_kf_interval := 1000 }

/-- A detector state with no importance-block evidence anywhere from the
decision offset to the back of the deque. -/
def witStateC4 : SceneChangeDetector :=
  { cexStateC4 with
    score_deque :=
      [{ imp_block_cost := 0, backward_adjusted_cost := 0,
         forward_adjusted_cost := 0, threshold := 1 },
       { imp_block_cost := 0, backward_adjusted_cost := 0,
         forward_adjusted_cost := 5, threshold := 1 },
       { imp_block_cost := 0, backward_adjusted_cost := 0,
         forward_adjusted_cost := 0, threshold := 1 }] }

/-- A detector state where exactly one forward entry is over threshold, but
that entry is NOT the newest one (`forward_deque[0]` is under threshold). -/
def cexStateC5 : SceneChangeDetector :=
  { cexStateC4 with
    deque_offset := 2
    score_deque :=
      [{ imp_block_cost := 0, backward_adjusted_cost := 0,
         forward_adjusted_cost := 0, threshold := 1 },
       { imp_block_cost := 0, backward_adjusted_cost := 0,
         forward_adjusted_cost := 5, threshold := 1 },
       { imp_block_cost := 100, backward_adjusted_cost := 0,
         forward_adjusted_cost := 5, threshold := 1 }] }

/-- A detector state where the single over-threshold forward entry is the
newest one, so the cut-before-flash rule fires. -/
def witStateC5 : SceneChangeDetector :=
  { cexStateC4 with
    deque_offset := 1
    score_deque :=
      [{ imp_block_cost := 0, backward_adjusted_cost := 0,
         forward_adjusted_cost := 5, threshold := 1 },
       { imp_block_cost := 100, backward_adjusted_cost := 0,
         forward_adjusted_cost := 5, threshold := 1 },
       { imp_block_cost := 0, backward_adjusted_cost := 0,
         forward_adjusted_cost := 0, threshold := 1 }] }

/-- A warmed-up detector state with decision offset 0 for the end-of-stream
decrement underflow. -/
def witStateC10 : SceneChangeDetector :=
  { cexStateC4 with
    deque_offset := 0
    score_deque :=
      [{ imp_block_cost := 0, backward_adjusted_cost := 0,
         forward_adjusted_cost := 0, threshold := 1 }] }

/-- A concrete detector with `lookahead_distance = 0` (decision offset 0). -/
def smallDet : SceneChangeDetector := SceneChangeDetector.new dsfId 8 0 16 16 0 1000

/-- A concrete detector with `lookahead_distance = 6` (decision offset 5) and
`max_kf_interval = 10`. -/
def bigDet : SceneChangeDetector := SceneChangeDetector.new dsfId 8 6 16 16 0 10

/-! ## Structural helper lemmas -/

theorem fast_scenecut_snd (s : SceneChangeDetector) (f1 f2 : Frame) :
    ((s.fast_scenecut f1 f2).2).score_deque = s.score_deque ∧
    ((s.fast_scenecut f1 f2).2).deque_offset = s.deque_offset ∧
    ((s.fast_scenecut f1 f2).2).lookahead_offset = s.lookahead_offset ∧
    ((s.fast_scenecut f1 f2).2).min_kf_interval = s.min_kf_interval ∧
    ((s.fast_scenecut f1 f2).2).max_kf_interval = s.max_kf_interval ∧
    ((s.fast_scenecut f1 f2).2).bit_depth = s.bit_depth ∧
    ((s.fast_scenecut f1 f2).2).threshold = s.threshold ∧
    ((s.fast_scenecut f1 f2).2).pixels = s.pixels ∧
    ((s.fast_scenecut f1 f2).2).scale_func = s.scale_func := by
  unfold SceneChangeDetector.fast_scenecut
  split <;> simp

theorem run_comparison_fields (s : SceneChangeDetector) (f1 f2 : Frame) :
    (s.run_comparison f1 f2).score_deque = (s.fast_scenecut f1 f2).1 :: s.score_deque ∧
    (s.run_comparison f1 f2).deque_offset = s.deque_offset ∧
    (s.run_comparison f1 f2).lookahead_offset = s.lookahead_offset ∧
    (s.run_comparison f1 f2).min_kf_interval = s.min_kf_interval ∧
    (s.run_comparison f1 f2).max_kf_interval = s.max_kf_interval ∧
    (s.run_comparison f1 f2).bit_depth = s.bit_depth ∧
    (s.run_comparison f1 f2).threshold = s.threshold ∧
    (s.run_comparison f1 f2).pixels = s.pixels := by
  have h := fast_scenecut_snd s f1 f2
  unfold SceneChangeDetector.run_comparison
  exact ⟨by simp [h.1], by simp [h.2.1], by simp [h.2.2.1], by simp [h.2.2.2.1],
    by simp [h.2.2.2.2.1], by simp [h.2.2.2.2.2.1], by simp [h.2.2.2.2.2.2.1],
    by simp [h.2.2.2.2.2.2.2.1]⟩

theorem init_score_aux_spec (fs : List Frame) :
    ∀ (n x : Nat) (s s' : SceneChangeDetector), init_score_aux fs x n s = some s' →
      s'.score_deque.length = s.score_deque.length + n ∧
      s'.deque_offset = s.deque_offset ∧
      s'.lookahead_offset = s.lookahead_offset ∧
      s'.min_kf_interval = s.min_kf_interval ∧
      s'.max_kf_interval = s.max_kf_interval ∧
      s'.bit_depth = s.bit_depth ∧
      s'.threshold = s.threshold ∧
      s'.pixels = s.pixels := by
  intro n
  induction n with
  | zero =>
    intro x s s' h
    simp [init_score_aux] at h
    subst h
    simp
  | succ n ih =>
    intro x s s' h
    unfold init_score_aux at h
    cases hg1 : fs.get? x with
    | none => rw [hg1] at h; exact absurd h (by simp)
    | some f1 =>
      cases hg2 : fs.get? (x + 1) with
      | none => rw [hg1, hg2] at h; exact absurd h (by simp)
      | some f2 =>
        rw [hg1, hg2] at h
        have hrec := ih (x + 1) (s.run_comparison f1 f2) s' h
        have hrun := run_comparison_fields s f1 f2
        have hl : (s.run_comparison f1 f2).score_deque.length
            = s.score_deque.length + 1 := by rw [hrun.1]; simp
        refine ⟨by rw [hrec.1, hl]; omega, by rw [hrec.2.1, hrun.2.1],
          by rw [hrec.2.2.1, hrun.2.2.1], by rw [hrec.2.2.2.1, hrun.2.2.2.1],
          by rw [hrec.2.2.2.2.1, hrun.2.2.2.2.1],
          by rw [hrec.2.2.2.2.2.1, hrun.2.2.2.2.2.1],
          by rw [hrec.2.2.2.2.2.2.1, hrun.2.2.2.2.2.2.1],
          by rw [hrec.2.2.2.2.2.2.2, hrun.2.2.2.2.2.2.2]⟩

theorem checked_sub_some {a b c : Nat} (h : checked_sub a b = some c) :
    b ≤ a ∧ c = a - b := by
  unfold checked_sub at h
  split at h
  · exact ⟨by assumption, by injection h; omega⟩
  · exact absurd h (by simp)

theorem checked_sub_of_le {a b : Nat} (h : b ≤ a) : checked_sub a b = some (a - b) := by
  simp [checked_sub, h]

theorem scale_factor_value_eq (dsf : Nat → Plane → Plane) (w h : Nat) :
    scale_factor_value dsf w h = edge_factor (min h w) := by
  unfold scale_factor_value detect_scale_factor edge_factor
  by_cases h1 : min h w ≤ 240 <;> by_cases h2 : min h w ≤ 480 <;>
    by_cases h3 : min h w ≤ 720 <;> by_cases h4 : min h w ≤ 1080 <;>
    by_cases h5 : min h w ≤ 1600 <;> simp [h1, h2, h3, h4, h5]

theorem edge_factor_mono {e e' : Nat} (h : e ≤ e') : edge_factor e ≤ edge_factor e' := by
  unfold edge_factor
  split_ifs <;> omega

theorem edge_factor_pow2 (e : Nat) : ∃ k, edge_factor e = 2 ^ k := by
  unfold edge_factor
  split_ifs
  · exact ⟨0, rfl⟩
  · exact ⟨1, rfl⟩
  · exact ⟨2, rfl⟩
  · exact ⟨3, rfl⟩
  · exact ⟨4, rfl⟩
  · exact ⟨5, rfl⟩

/-! ## Claims -/

/-- C6: calling `analyze_next_frame` with a window no longer than the
configured decision offset (`lookahead_offset`) returns `false`
unconditionally and leaves the whole detector state — in particular the cost
history — unchanged. -/
theorem C6_short_window_guard (s : SceneChangeDetector) (fs : List Frame)
    (fn pk : Nat) (hpk : pk ≤ fn) (hlen : fs.length ≤ s.lookahead_offset) :
    s.analyze_next_frame fs fn pk = some (false, s) := by
  unfold SceneChangeDetector.analyze_next_frame
  rw [checked_sub_of_le hpk]
  simp [hlen]

/-- Witness for C6 at a concrete detector and window. -/
theorem C6_short_window_guard_witness :
    (SceneChangeDetector.new dsfId 8 5 16 16 0 10).analyze_next_frame [[0]] 1 0 =
      some (false, SceneChangeDetector.new dsfId 8 5 16 16 0 10) :=
  C6_short_window_guard (SceneChangeDetector.new dsfId 8 5 16 16 0 10) [[0]] 1 0
    (by decide) (by decide)

/-- C7: the downscale policy returns `none` for a smallest edge ≤ 240 and
factors 2, 4, 8, 16, 32 on (240,480], (480,720], (720,1080], (1080,1600],
(1600,∞); the effective factor is a power of two and monotone non-decreasing
in the smaller edge. -/
theorem C7_downscale_policy (dsf : Nat → Plane → Plane) (w h : Nat) :
    (min w h ≤ 240 → detect_scale_factor dsf w h = none) ∧
    (240 < min w h ∧ min w h ≤ 480 →
      (detect_scale_factor dsf w h).map ScaleFunction.factor = some 2) ∧
    (480 < min w h ∧ min w h ≤ 720 →
      (detect_scale_factor dsf w h).map ScaleFunction.factor = some 4) ∧
    (720 < min w h ∧ min w h ≤ 1080 →
      (detect_scale_factor dsf w h).map ScaleFunction.factor = some 8) ∧
    (1080 < min w h ∧ min w h ≤ 1600 →
      (detect_scale_factor dsf w h).map ScaleFunction.factor = some 16) ∧
    (1600 < min w h →
      (detect_scale_factor dsf w h).map ScaleFunction.factor = some 32) ∧
    (∃ k, scale_factor_value dsf w h = 2 ^ k) ∧
    (∀ w' h', min w h ≤ min w' h' →
      scale_factor_value dsf w h ≤ scale_factor_value dsf w' h') := by
  have hmin : min h w = min w h := Nat.min_comm h w
  refine ⟨?_, ?_, ?_, ?_, ?_, ?_, ?_, ?_⟩
  · intro hle
    unfold detect_scale_factor
    rw [hmin]
    simp [hle]
  · rintro ⟨ha, hb⟩
    unfold detect_scale_factor
    rw [hmin]
    simp [show ¬ (min w h ≤ 240) by omega, hb]
  · rintro ⟨ha, hb⟩
    unfold detect_scale_factor
    rw [hmin]
    simp [show ¬ (min w h ≤ 240) by omega, show ¬ (min w h ≤ 480) by omega, hb]
  · rintro ⟨ha, hb⟩
    unfold detect_scale_factor
    rw [hmin]
    simp [show ¬ (min w h ≤ 240) by omega, show ¬ (min w h ≤ 480) by omega,
      show ¬ (min w h ≤ 720) by omega, hb]
  · rintro ⟨ha, hb⟩
    unfold detect_scale_factor
    rw [hmin]
    simp [show ¬ (min w h ≤ 240) by omega, show ¬ (min w h ≤ 480) by omega,
      show ¬ (min w h ≤ 720) by omega, show ¬ (min w h ≤ 1080) by omega, hb]
  · intro ha
    unfold detect_scale_factor
    rw [hmin]
    simp [show ¬ (min w h ≤ 240) by omega, show ¬ (min w h ≤ 480) by omega,
      show ¬ (min w h ≤ 720) by omega, show ¬ (min w h ≤ 1080) by omega,
      show ¬ (min w h ≤ 1600) by omega]
  · rw [scale_factor_value_eq]
    exact edge_factor_pow2 _
  · intro w' h' hle
    rw [scale_factor_value_eq, scale_factor_value_eq]
    exact edge_factor_mono (by omega)

/-- Witness for C7 at concrete resolutions. -/
theorem C7_downscale_policy_witness :
    (detect_scale_factor dsfId 300 400).map ScaleFunction.factor = some 2 ∧
    scale_factor_value dsfId 300 400 ≤ scale_factor_value dsfId 700 800 :=
  ⟨(C7_downscale_policy dsfId 300 400).2.1 (by omega),
   (C7_downscale_policy dsfId 300 400).2.2.2.2.2.2.2 700 800 (by decide)⟩

/-- C8: comparing (A,B) then (B,C) on one detector gives the same result for
the (B,C) pair as a fresh identically configured detector comparing (B,C)
directly — the two-slot rotation leaks no stale data. -/
theorem C8_no_stale_data (dsf : Nat → Plane → Plane)
    (bd d w h mn mx : Nat) (A B C : Frame) :
    (((SceneChangeDetector.new dsf bd d w h mn mx).fast_scenecut A B).2.fast_scenecut B C).1 =
      ((SceneChangeDetector.new dsf bd d w h mn mx).fast_scenecut B C).1 := by
  cases hd : detect_scale_factor dsf w h with
  | none =>
    simp [SceneChangeDetector.new, SceneChangeDetector.fast_scenecut, hd,
      SceneChangeDetector.delta_in_planes]
  | some sf =>
    simp [SceneChangeDetector.new, SceneChangeDetector.fast_scenecut, hd,
      SceneChangeDetector.delta_in_planes]

/-- C9: every `fast_scenecut` result has its three cost fields equal to the
single delta `sad / pixels` of the two compared planes, and its threshold
field is the detector's construction-time threshold `18 * bit_depth / 8`. -/
theorem C9_result_fields :
    (∀ (s : SceneChangeDetector) (f1 f2 : Frame),
      ((s.fast_scenecut f1 f2).1).forward_adjusted_cost
          = ((s.fast_scenecut f1 f2).1).imp_block_cost ∧
      ((s.fast_scenecut f1 f2).1).backward_adjusted_cost
          = ((s.fast_scenecut f1 f2).1).imp_block_cost ∧
      ((s.fast_scenecut f1 f2).1).threshold = s.threshold ∧
      ((s.fast_scenecut f1 f2).1).imp_block_cost =
        (sad_plane (compared_planes (s.fast_scenecut f1 f2).2).1
          (compared_planes (s.fast_scenecut f1 f2).2).2 : ℚ) / (s.pixels : ℚ)) ∧
    (∀ (dsf : Nat → Plane → Plane) (bd d w h mn mx : Nat),
      (SceneChangeDetector.new dsf bd d w h mn mx).threshold = 18 * (bd : ℚ) / 8) := by
  constructor
  · intro s f1 f2
    unfold SceneChangeDetector.fast_scenecut
    cases hs : s.scale_func with
    | none => simp [hs, compared_planes, SceneChangeDetector.delta_in_planes]
    | some sf => simp [hs, compared_planes, SceneChangeDetector.delta_in_planes]
  · intro dsf bd d w h mn mx
    simp [SceneChangeDetector.new, FAST_THRESHOLD]

/-- C10: `analyze_next_frame` is not total.  With `lookahead_distance < 5`
(decision offset 0) a first call on a one-frame window panics at
`frame_set.len() - 2`; and any call on a one-frame window against a warmed-up
state with decision offset already 0 panics at `deque_offset -= 1`. -/
theorem C10_not_total :
    (∀ (dsf : Nat → Plane → Plane) (bd d w h mn mx : Nat) (f : Frame) (fn pk : Nat),
      d < 5 → pk ≤ fn →
      (SceneChangeDetector.new dsf bd d w h mn mx).analyze_next_frame [f] fn pk = none) ∧
    (∀ (s : SceneChangeDetector) (f : Frame) (fn pk : Nat), pk ≤ fn →
      s.lookahead_offset = 0 → s.deque_offset = 0 → s.score_deque ≠ [] →
      s.analyze_next_frame [f] fn pk = none) := by
  constructor
  · intro dsf bd d w h mn mx f fn pk hd hpk
    have hoff : (if 5 ≤ d then 5 else 0) = 0 := if_neg (by omega)
    unfold SceneChangeDetector.analyze_next_frame
    rw [checked_sub_of_le hpk]
    simp only [SceneChangeDetector.new, hoff]
    simp [SceneChangeDetector.update_state, SceneChangeDetector.init_phase,
      SceneChangeDetector.initialize_score_deque, init_score_aux, checked_sub]
  · intro s f fn pk hpk hlook hoff hne
    unfold SceneChangeDetector.analyze_next_frame
    rw [checked_sub_of_le hpk]
    simp [hlook, SceneChangeDetector.update_state, SceneChangeDetector.init_phase,
      hne, SceneChangeDetector.compare_or_shrink, hoff, checked_sub]

/-- Witness for C10 at a concrete fresh detector and a concrete warmed-up
state. -/
theorem C10_not_total_witness :
    (SceneChangeDetector.new dsfId 8 0 16 16 0 10).analyze_next_frame [[0]] 1 0 = none ∧
    witStateC10.analyze_next_frame [[0]] 1 0 = none :=
  ⟨C10_not_total.1 dsfId 8 0 16 16 0 10 [0] 1 0 (by decide) (by decide),
   C10_not_total.2 witStateC10 [0] 1 0 (by decide) (by decide) (by decide) (by decide)⟩

theorem init_phase_fields {s s1 : SceneChangeDetector} {fs : List Frame}
    (h : s.init_phase fs = some s1) :
    s1.lookahead_offset = s.lookahead_offset ∧
    s1.min_kf_interval = s.min_kf_interval ∧
    s1.max_kf_interval = s.max_kf_interval ∧
    s1.bit_depth = s.bit_depth ∧
    s1.threshold = s.threshold ∧
    s1.pixels = s.pixels := by
  unfold SceneChangeDetector.init_phase at h
  split at h
  · exact (init_score_aux_spec fs _ 0 s s1 h).2.2
  · split at h
    · rename_i hinit
      cases hi : s.initialize_score_deque fs (fs.length - 1) with
      | none =>
        rw [hi] at h
        exact absurd h (by simp)
      | some smid =>
        rw [hi] at h
        cases hc : checked_sub fs.length 2 with
        | none => rw [hc] at h; exact absurd h (by simp)
        | some dd =>
          rw [hc] at h
          have hspec := init_score_aux_spec fs _ 0 s smid hi
          injection h with h
          subst h
          simpa using hspec.2.2
    · injection h with h
      subst h
      exact ⟨rfl, rfl, rfl, rfl, rfl, rfl⟩

theorem init_phase_cases {s s1 : SceneChangeDetector} {fs : List Frame}
    (h : s.init_phase fs = some s1) :
    (s.score_deque ≠ [] ∧ s1 = s) ∨
    (s.score_deque = [] ∧ 0 < s.deque_offset ∧ s.deque_offset + 1 < fs.length ∧
      s1.deque_offset = s.deque_offset ∧ s1.score_deque.length = s.deque_offset) ∨
    (s.score_deque = [] ∧ ¬ (0 < s.deque_offset ∧ s.deque_offset + 1 < fs.length) ∧
      2 ≤ fs.length ∧ s1.deque_offset = fs.length - 2 ∧
      s1.score_deque.length = fs.length - 1) := by
  unfold SceneChangeDetector.init_phase at h
  split at h
  · rename_i hcond
    have hspec := init_score_aux_spec fs _ 0 s s1 h
    refine Or.inr (Or.inl ⟨hcond.2.2, hcond.1, hcond.2.1, hspec.2.1, ?_⟩)
    rw [hspec.1, hcond.2.2]
    simp
  · split at h
    · rename_i hcond hemp
      cases hi : s.initialize_score_deque fs (fs.length - 1) with
      | none =>
        rw [hi] at h
        exact absurd h (by simp)
      | some smid =>
        rw [hi] at h
        cases hc : checked_sub fs.length 2 with
        | none => rw [hc] at h; exact absurd h (by simp)
        | some dd =>
          rw [hc] at h
          have hcs := checked_sub_some hc
          have hspec := init_score_aux_spec fs _ 0 s smid hi
          injection h with h
          subst h
          refine Or.inr (Or.inr ⟨hemp, fun hcontra => hcond ⟨hcontra.1, hcontra.2, hemp⟩,
            hcs.1, by simpa using hcs.2, ?_⟩)
          have : smid.score_deque.length = s.score_deque.length + (fs.length - 1) := hspec.1
          simp only [hemp] at this
          simpa using this
    · injection h with h
      subst h
      rename_i hcond hemp
      exact Or.inl ⟨hemp, rfl⟩

theorem compare_or_shrink_cases {s s1 : SceneChangeDetector} {fs : List Frame}
    (h : s.compare_or_shrink fs = some s1) :
    (s.deque_offset + 1 < fs.length ∧ ∃ f1 f2, s1 = s.run_comparison f1 f2) ∨
    (¬ (s.deque_offset + 1 < fs.length) ∧ 1 ≤ s.deque_offset ∧
      s1 = { s with deque_offset := s.deque_offset - 1 }) := by
  unfold SceneChangeDetector.compare_or_shrink at h
  split at h
  · rename_i hlt
    cases hg1 : fs.get? s.deque_offset with
    | none => rw [hg1] at h; exact absurd h (by simp)
    | some f1 =>
      cases hg2 : fs.get? (s.deque_offset + 1) with
      | none => rw [hg1, hg2] at h; exact absurd h (by simp)
      | some f2 =>
        rw [hg1, hg2] at h
        injection h with h
        exact Or.inl ⟨hlt, f1, f2, h.symm⟩
  · rename_i hge
    cases hc : checked_sub s.deque_offset 1 with
    | none => rw [hc] at h; exact absurd h (by simp)
    | some dd =>
      rw [hc] at h
      have hcs := checked_sub_some hc
      injection h with h
      subst h
      exact Or.inr ⟨hge, hcs.1, by rw [hcs.2]⟩

theorem compare_or_shrink_fields {s s1 : SceneChangeDetector} {fs : List Frame}
    (h : s.compare_or_shrink fs = some s1) :
    s1.lookahead_offset = s.lookahead_offset ∧
    s1.min_kf_interval = s.min_kf_interval ∧
    s1.max_kf_interval = s.max_kf_interval ∧
    s1.bit_depth = s.bit_depth ∧
    s1.threshold = s.threshold ∧
    s1.pixels = s.pixels := by
  rcases compare_or_shrink_cases h with ⟨hlt, f1, f2, rfl⟩ | ⟨hge, hpos, rfl⟩
  · have hrun := run_comparison_fields s f1 f2
    exact ⟨hrun.2.2.1, hrun.2.2.2.1, hrun.2.2.2.2.1, hrun.2.2.2.2.2.1,
      hrun.2.2.2.2.2.2.1, hrun.2.2.2.2.2.2.2⟩
  · exact ⟨rfl, rfl, rfl, rfl, rfl, rfl⟩

theorem update_state_fields {s s1 : SceneChangeDetector} {fs : List Frame}
    (h : s.update_state fs = some s1) :
    s1.lookahead_offset = s.lookahead_offset ∧
    s1.min_kf_interval = s.min_kf_interval ∧
    s1.max_kf_interval = s.max_kf_interval ∧
    s1.bit_depth = s.bit_depth ∧
    s1.threshold = s.threshold ∧
    s1.pixels = s.pixels := by
  unfold SceneChangeDetector.update_state at h
  cases hi : s.init_phase fs with
  | none => rw [hi] at h; exact absurd h (by simp)
  | some smid =>
    rw [hi] at h
    have h1 := init_phase_fields hi
    have h2 := compare_or_shrink_fields h
    exact ⟨h2.1.trans h1.1, h2.2.1.trans h1.2.1, h2.2.2.1.trans h1.2.2.1,
      h2.2.2.2.1.trans h1.2.2.2.1, h2.2.2.2.2.1.trans h1.2.2.2.2.1,
      h2.2.2.2.2.2.trans h1.2.2.2.2.2⟩

theorem analyze_split {s s' : SceneChangeDetector} {fs : List Frame}
    {fn pk : Nat} {b : Bool}
    (hlen : s.lookahead_offset < fs.length)
    (h : s.analyze_next_frame fs fn pk = some (b, s')) :
    pk ≤ fn ∧ ∃ s1 sc, s.update_state fs = some s1 ∧
      s1.adaptive_scenecut = some sc ∧
      b = (s1.handle_min_max_intervals (fn - pk)).getD sc ∧
      s' = (if 5 + s1.lookahead_offset < s1.score_deque.length then
          { s1 with score_deque := s1.score_deque.dropLast } else s1) := by
  unfold SceneChangeDetector.analyze_next_frame at h
  cases hc : checked_sub fn pk with
  | none => rw [hc] at h; exact absurd h (by simp)
  | some distance =>
    rw [hc] at h
    dsimp only at h
    have hcs := checked_sub_some hc
    rw [if_neg (by omega)] at h
    cases hu : s.update_state fs with
    | none => rw [hu] at h; exact absurd h (by simp)
    | some s1 =>
      rw [hu] at h
      dsimp only at h
      cases ha : s1.adaptive_scenecut with
      | none => rw [ha] at h; exact absurd h (by simp)
      | some sc =>
        rw [ha] at h
        dsimp only at h
        injection h with h
        have hb : b = ((s1.handle_min_max_intervals distance).getD sc) :=
          congrArg Prod.fst h.symm
        have hs' : s' = (if 5 + s1.lookahead_offset < s1.score_deque.length then
            { s1 with score_deque := s1.score_deque.dropLast } else s1) :=
          congrArg Prod.snd h.symm
        exact ⟨hcs.1, s1, sc, rfl, ha, by rw [hb, hcs.2.symm], hs'⟩

/-- Concrete evaluation of a full `analyze_next_frame` call on `smallDet`:
two identical one-pixel frames produce no scene cut. -/
theorem analyze_smallDet_eval :
    (smallDet.analyze_next_frame [[0], [0]] 1 0).map Prod.fst = some false := by
  norm_num [smallDet, SceneChangeDetector.new, SceneChangeDetector.analyze_next_frame,
    SceneChangeDetector.update_state, SceneChangeDetector.init_phase,
    SceneChangeDetector.initialize_score_deque, init_score_aux,
    SceneChangeDetector.compare_or_shrink, SceneChangeDetector.run_comparison,
    SceneChangeDetector.fast_scenecut, SceneChangeDetector.delta_in_planes,
    SceneChangeDetector.adaptive_scenecut, SceneChangeDetector.imp_block_threshold,
    SceneChangeDetector.handle_min_max_intervals, checked_sub, sad_plane,
    detect_scale_factor, fast_idiv, IMP_BLOCK_DIFF_THRESHOLD, FAST_THRESHOLD,
    SceneChangeDetector.back_over_tr_count, SceneChangeDetector.forward_over_tr_count,
    SceneChangeDetector.back_deque, SceneChangeDetector.forward_deque,
    front_over_forward]

/-- C1 (amended): provided the call passes the end-of-stream window guard,
the hard-interval override determines the result: a distance below
`min_kf_interval` forces `false`; otherwise a distance at or above
`max_kf_interval` forces `true`; otherwise the adaptive decision is returned
unchanged. -/
theorem C1_hard_interval_override (s : SceneChangeDetector) (fs : List Frame)
    (fn pk : Nat) (b : Bool) (hlen : s.lookahead_offset < fs.length)
    (h : (s.analyze_next_frame fs fn pk).map Prod.fst = some b) :
    (fn - pk < s.min_kf_interval → b = false) ∧
    (s.min_kf_interval ≤ fn - pk → s.max_kf_interval ≤ fn - pk → b = true) ∧
    (s.min_kf_interval ≤ fn - pk → fn - pk < s.max_kf_interval →
      ∃ s1, s.update_state fs = some s1 ∧ s1.adaptive_scenecut = some b) := by
  cases hx : s.analyze_next_frame fs fn pk with
  | none => rw [hx] at h; exact absurd h (by simp)
  | some r =>
    cases r with
    | mk rb rs =>
      rw [hx] at h
      simp only [Option.map_some', Option.some.injEq] at h
      subst h
      obtain ⟨hpk, s1, sc, hu, ha, hb, _⟩ := analyze_split hlen hx
      have hfields := update_state_fields hu
      refine ⟨?_, ?_, ?_⟩
      · intro hlt
        rw [hb]
        unfold SceneChangeDetector.handle_min_max_intervals
        rw [hfields.2.1]
        simp [hlt]
      · intro hge hmax
        rw [hb]
        unfold SceneChangeDetector.handle_min_max_intervals
        rw [hfields.2.1, hfields.2.2.1]
        rw [if_neg (by omega), if_pos hmax]
        rfl
      · intro hge hmax
        refine ⟨s1, hu, ?_⟩
        rw [ha, hb]
        unfold SceneChangeDetector.handle_min_max_intervals
        rw [hfields.2.1, hfields.2.2.1]
        rw [if_neg (by omega), if_neg (by omega)]
        rfl

/-- Counterexample to C1 as stated: on `bigDet` (`max_kf_interval = 10`,
decision offset 5) a call with distance 100 ≥ 10 still returns `false`,
because the end-of-stream window guard fires first. -/
theorem C1_counterexample :
    bigDet.max_kf_interval ≤ 100 - 0 ∧
    (bigDet.analyze_next_frame [[0], [0], [0]] 100 0).map Prod.fst = some false := by
  constructor
  · decide
  · decide

/-- Witness for C1 at a concrete passing call. -/
theorem C1_hard_interval_override_witness :
    (1 - 0 < smallDet.min_kf_interval → false = false) ∧
    (smallDet.min_kf_interval ≤ 1 - 0 → smallDet.max_kf_interval ≤ 1 - 0 →
      false = true) ∧
    (smallDet.min_kf_interval ≤ 1 - 0 → 1 - 0 < smallDet.max_kf_interval →
      ∃ s1, smallDet.update_state [[0], [0]] = some s1 ∧
        s1.adaptive_scenecut = some false) :=
  C1_hard_interval_override smallDet [[0], [0]] 1 0 false (by decide)
    analyze_smallDet_eval

/-- C3 (amended): the deque offset starts at 5 when `lookahead_distance ≥ 5`
and at 0 otherwise, and a call changes it only by the warm-up
reinitialization (which sets it to `window length − 2` from an empty score
deque) or by the end-of-stream decrement (one less when the window has no
frame beyond the offset). -/
theorem C3_deque_offset :
    (∀ (dsf : Nat → Plane → Plane) (bd d w h mn mx : Nat),
      (SceneChangeDetector.new dsf bd d w h mn mx).deque_offset
        = if 5 ≤ d then 5 else 0) ∧
    (∀ (s s' : SceneChangeDetector) (fs : List Frame) (fn pk : Nat) (b : Bool),
      s.analyze_next_frame fs fn pk = some (b, s') →
      s'.deque_offset = s.deque_offset ∨
      (s.score_deque = [] ∧ s'.deque_offset + 2 = fs.length) ∨
      (s.score_deque ≠ [] ∧ fs.length ≤ s.deque_offset + 1 ∧
        s'.deque_offset + 1 = s.deque_offset)) := by
  constructor
  · intro dsf bd d w h mn mx
    simp [SceneChangeDetector.new]
  · intro s s' fs fn pk b h
    by_cases hlen : fs.length ≤ s.lookahead_offset
    · left
      unfold SceneChangeDetector.analyze_next_frame at h
      cases hc : checked_sub fn pk with
      | none => rw [hc] at h; exact absurd h (by simp)
      | some distance =>
        rw [hc] at h
        dsimp only at h
        rw [if_pos hlen] at h
        injection h with h
        injection h with h1 h2
        rw [← h2]
    · push_neg at hlen
      obtain ⟨hpk, s1, sc, hu, ha, hb, hs'⟩ := analyze_split hlen h
      have hoff' : s'.deque_offset = s1.deque_offset := by
        rw [hs']; split <;> rfl
      unfold SceneChangeDetector.update_state at hu
      cases hi : s.init_phase fs with
      | none => rw [hi] at hu; exact absurd hu (by simp)
      | some smid =>
        rw [hi] at hu
        dsimp only at hu
        rcases init_phase_cases hi with ⟨hne, heq⟩ |
          ⟨hemp, hpos, hltw, hoffmid, hlenmid⟩ |
          ⟨hemp, hncond, hge2, hoffmid, hlenmid⟩
        · rw [heq] at hu
          rcases compare_or_shrink_cases hu with ⟨hlt2, f1, f2, rfl⟩ | ⟨hge, hpos1, rfl⟩
          · left
            rw [hoff', (run_comparison_fields s f1 f2).2.1]
          · right; right
            refine ⟨hne, by omega, ?_⟩
            rw [hoff']
            show s.deque_offset - 1 + 1 = s.deque_offset
            omega
        · rcases compare_or_shrink_cases hu with ⟨hlt2, f1, f2, rfl⟩ | ⟨hge, hpos1, rfl⟩
          · left
            rw [hoff', (run_comparison_fields smid f1 f2).2.1, hoffmid]
          · exact absurd (by omega : smid.deque_offset + 1 < fs.length) hge
        · rcases compare_or_shrink_cases hu with ⟨hlt2, f1, f2, rfl⟩ | ⟨hge, hpos1, rfl⟩
          · right; left
            refine ⟨hemp, ?_⟩
            rw [hoff', (run_comparison_fields smid f1 f2).2.1, hoffmid]
            omega
          · exact absurd (by omega : smid.deque_offset + 1 < fs.length) hge

/-- Counterexample to C3 as stated: with `lookahead_distance = 3` the deque
offset starts at 0, not at `min 5 3 = 3`. -/
theorem C3_counterexample :
    (SceneChangeDetector.new dsfId 8 3 16 16 0 100).deque_offset = 0 ∧
      min 5 3 = 3 := by
  exact ⟨by decide, rfl⟩

/-- Witness for C3 at a concrete construction and a concrete call. -/
theorem C3_deque_offset_witness :
    ((SceneChangeDetector.new dsfId 8 5 16 16 0 10).deque_offset
        = if 5 ≤ (5 : Nat) then 5 else 0) ∧
    (bigDet.deque_offset = bigDet.deque_offset ∨
      (bigDet.score_deque = [] ∧ bigDet.deque_offset + 2 = ([] : List Frame).length) ∨
      (bigDet.score_deque ≠ [] ∧ ([] : List Frame).length ≤ bigDet.deque_offset + 1 ∧
        bigDet.deque_offset + 1 = bigDet.deque_offset)) :=
  ⟨C3_deque_offset.1 dsfId 8 5 16 16 0 10,
   C3_deque_offset.2 bigDet bigDet [] 1 0 false rfl⟩

/-- C4 (amended): the adaptive engine returns `false` unless at least one
entry in the window from the decision offset to the OLDEST end (the back of
the deque) has an importance-block cost at or above `7 * bit_depth / 8`. -/
theorem C4_imp_block_gate (s : SceneChangeDetector)
    (hidx : s.deque_offset < s.score_deque.length)
    (h : ∀ r ∈ s.score_deque.drop s.deque_offset,
      r.imp_block_cost < s.imp_block_threshold) :
    s.adaptive_scenecut = some false := by
  unfold SceneChangeDetector.adaptive_scenecut
  rw [List.get?_eq_get hidx]
  dsimp only
  have hany : ((s.score_deque.drop s.deque_offset).any fun r =>
      decide (s.imp_block_threshold ≤ r.imp_block_cost)) = false := by
    rw [List.any_eq_false]
    intro r hr
    simp only [decide_eq_true_eq, not_le]
    exact h r hr
  rw [hany]
  simp

/-- Counterexample to C4 as stated: a state whose only importance-block
evidence is OLDER than the decision entry (all entries from the decision
offset to the newest end are below the importance threshold) still yields
`true`. -/
theorem C4_counterexample :
    cexStateC4.adaptive_scenecut = some true ∧
    ((cexStateC4.score_deque.take (cexStateC4.deque_offset + 1)).all fun r =>
      decide (r.imp_block_cost < cexStateC4.imp_block_threshold)) = true := by
  constructor
  · norm_num [cexStateC4, SceneChangeDetector.adaptive_scenecut,
      SceneChangeDetector.imp_block_threshold, IMP_BLOCK_DIFF_THRESHOLD,
      SceneChangeDetector.back_over_tr_count, SceneChangeDetector.forward_over_tr_count,
      SceneChangeDetector.back_deque, SceneChangeDetector.forward_deque,
      front_over_forward, List.filter]
  · norm_num [cexStateC4, SceneChangeDetector.imp_block_threshold,
      IMP_BLOCK_DIFF_THRESHOLD]

/-- The gate hypothesis of the C4 witness, evaluated concretely. -/
theorem witStateC4_gate : ∀ r ∈ witStateC4.score_deque.drop witStateC4.deque_offset,
    r.imp_block_cost < witStateC4.imp_block_threshold := by
  norm_num [witStateC4, cexStateC4, SceneChangeDetector.imp_block_threshold,
    IMP_BLOCK_DIFF_THRESHOLD]

/-- Witness for C4 at a concrete state. -/
theorem C4_imp_block_gate_witness : witStateC4.adaptive_scenecut = some false :=
  C4_imp_block_gate witStateC4 (by decide) witStateC4_gate

/-- C5 (amended): when the importance gate passes, the decision entry is at
or over its threshold, no backward entry is over threshold, exactly one
forward entry is over threshold, and the NEWEST forward entry
(`forward_deque[0]`) is at or over its own threshold, the adaptive engine
returns `true`. -/
theorem C5_cut_before_flash (s : SceneChangeDetector) (score : ScenecutResult)
    (hidx : s.score_deque.get? s.deque_offset = some score)
    (hgate : ((s.score_deque.drop s.deque_offset).any fun r =>
      decide (s.imp_block_threshold ≤ r.imp_block_cost)) = true)
    (hcost : score.threshold ≤ score.forward_adjusted_cost)
    (hback : s.back_over_tr_count = 0)
    (hfwd : s.forward_over_tr_count = 1)
    (hfront : front_over_forward s.forward_deque = true) :
    s.adaptive_scenecut = some true := by
  unfold SceneChangeDetector.adaptive_scenecut
  rw [hidx]
  dsimp only
  rw [hgate]
  simp [hcost, hback, hfwd, hfront]

/-- Counterexample to C5 as stated: the single over-threshold forward entry
is not the newest one; all claim conditions hold (strictly over its own
threshold), yet the engine returns `false`. -/
theorem C5_counterexample :
    cexStateC5.adaptive_scenecut = some false ∧
    cexStateC5.back_over_tr_count = 0 ∧
    cexStateC5.forward_over_tr_count = 1 ∧
    ((cexStateC5.forward_deque.filter fun r =>
        decide (r.threshold ≤ r.forward_adjusted_cost)).all fun r =>
      decide (r.threshold < r.forward_adjusted_cost)) = true ∧
    cexStateC5.score_deque.get? cexStateC5.deque_offset =
      some { imp_block_cost := 100, backward_adjusted_cost := 0,
             forward_adjusted_cost := 5, threshold := 1 } ∧
    ((1 : ℚ) ≤ 5) := by
  refine ⟨?_, ?_, ?_, ?_, ?_, ?_⟩ <;>
    norm_num [cexStateC5, cexStateC4, SceneChangeDetector.adaptive_scenecut,
      SceneChangeDetector.imp_block_threshold, IMP_BLOCK_DIFF_THRESHOLD,
      SceneChangeDetector.back_over_tr_count, SceneChangeDetector.forward_over_tr_count,
      SceneChangeDetector.back_deque, SceneChangeDetector.forward_deque,
      front_over_forward, List.filter]

/-- The gate hypothesis of the C5 witness, evaluated concretely. -/
theorem witStateC5_gate : ((witStateC5.score_deque.drop witStateC5.deque_offset).any
    fun r => decide (witStateC5.imp_block_threshold ≤ r.imp_block_cost)) = true := by
  norm_num [witStateC5, cexStateC4, SceneChangeDetector.imp_block_threshold,
    IMP_BLOCK_DIFF_THRESHOLD]

/-- Witness for C5 at a concrete state where the rule fires. -/
theorem C5_cut_before_flash_witness : witStateC5.adaptive_scenecut = some true :=
  C5_cut_before_flash witStateC5
    { imp_block_cost := 100, backward_adjusted_cost := 0,
      forward_adjusted_cost := 5, threshold := 1 }
    (by decide) witStateC5_gate (by decide) (by decide) (by decide) (by decide)

theorem analyze_early {s s' : SceneChangeDetector} {fs : List Frame}
    {fn pk : Nat} {b : Bool} (hlen : fs.length ≤ s.lookahead_offset)
    (h : s.analyze_next_frame fs fn pk = some (b, s')) : b = false ∧ s' = s := by
  unfold SceneChangeDetector.analyze_next_frame at h
  cases hc : checked_sub fn pk with
  | none => rw [hc] at h; exact absurd h (by simp)
  | some distance =>
    rw [hc] at h
    dsimp only at h
    rw [if_pos hlen] at h
    injection h with h
    injection h with h1 h2
    exact ⟨h1.symm, h2.symm⟩

theorem inv_new (dsf : Nat → Plane → Plane) (bd d w h mn mx : Nat) (hd : 5 ≤ d) :
    Inv (SceneChangeDetector.new dsf bd d w h mn mx) := by
  refine ⟨?_, ?_, ?_, ?_⟩ <;> simp [SceneChangeDetector.new, Inv, hd]

theorem update_state_inv {s s1 : SceneChangeDetector} {fs : List Frame}
    (hinv : Inv s) (hlen : 5 < fs.length) (h : s.update_state fs = some s1) :
    s1.lookahead_offset = 5 ∧ s1.deque_offset ≤ 5 ∧
    s1.score_deque.length ≤ 11 ∧ s1.score_deque ≠ [] := by
  obtain ⟨hlook, hoff, hcap, hempoff⟩ := hinv
  unfold SceneChangeDetector.update_state at h
  cases hi : s.init_phase fs with
  | none => rw [hi] at h; exact absurd h (by simp)
  | some smid =>
    rw [hi] at h
    dsimp only at h
    have hmidlook : smid.lookahead_offset = 5 := (init_phase_fields hi).1.trans hlook
    rcases init_phase_cases hi with ⟨hne, heq⟩ |
      ⟨hemp, hpos, hltw, hoffmid, hlenmid⟩ |
      ⟨hemp, hncond, hge2, hoffmid, hlenmid⟩
    · subst heq
      rcases compare_or_shrink_cases h with ⟨hlt2, f1, f2, rfl⟩ | ⟨hge, hpos1, rfl⟩
      · have hrun := run_comparison_fields smid f1 f2
        refine ⟨hrun.2.2.1.trans hmidlook, hrun.2.1 ▸ hoff, ?_, ?_⟩
        · rw [hrun.1]; simp; omega
        · rw [hrun.1]; simp
      · exact ⟨hmidlook, by show smid.deque_offset - 1 ≤ 5; omega,
          by show smid.score_deque.length ≤ 11; omega,
          by show smid.score_deque ≠ []; exact hne⟩
    · have hoff5 := hempoff hemp
      rcases compare_or_shrink_cases h with ⟨hlt2, f1, f2, rfl⟩ | ⟨hge, hpos1, rfl⟩
      · have hrun := run_comparison_fields smid f1 f2
        refine ⟨hrun.2.2.1.trans hmidlook, ?_, ?_, ?_⟩
        · rw [hrun.2.1, hoffmid]; omega
        · rw [hrun.1]; simp; omega
        · rw [hrun.1]; simp
      · exact absurd (by omega : smid.deque_offset + 1 < fs.length) hge
    · have hoff5 := hempoff hemp
      have hlen6 : fs.length = 6 := by
        rcases Decidable.not_and_iff_or_not.mp hncond with hc1 | hc2
        · omega
        · omega
      rcases compare_or_shrink_cases h with ⟨hlt2, f1, f2, rfl⟩ | ⟨hge, hpos1, rfl⟩
      · have hrun := run_comparison_fields smid f1 f2
        refine ⟨hrun.2.2.1.trans hmidlook, ?_, ?_, ?_⟩
        · rw [hrun.2.1, hoffmid]; omega
        · rw [hrun.1]; simp; omega
        · rw [hrun.1]; simp
      · exact absurd (by omega : smid.deque_offset + 1 < fs.length) hge

theorem inv_step {s s' : SceneChangeDetector} {fs : List Frame}
    {fn pk : Nat} {b : Bool} (hinv : Inv s)
    (h : s.analyze_next_frame fs fn pk = some (b, s')) : Inv s' := by
  by_cases hlen : fs.length ≤ s.lookahead_offset
  · rw [(analyze_early hlen h).2]
    exact hinv
  · push_neg at hlen
    obtain ⟨hpk, s1, sc, hu, ha, hb, hs'⟩ := analyze_split hlen h
    have hlen5 : 5 < fs.length := by
      have := hinv.1
      omega
    obtain ⟨h1look, h1off, h1cap, h1ne⟩ := update_state_inv hinv hlen5 hu
    have hne' : s'.score_deque ≠ [] := by
      rw [hs']
      split
      · rename_i hpop
        have : s1.score_deque.length - 1 ≠ 0 := by omega
        simp only [List.length_dropLast] at *
        intro hcon
        exact this (by rw [← List.length_dropLast]; rw [hcon]; rfl)
      · exact h1ne
    refine ⟨?_, ?_, ?_, fun hcon => absurd hcon hne'⟩
    · rw [hs']; split <;> simpa using h1look
    · rw [hs']; split <;> simpa using h1off
    · rw [hs']
      split
      · rename_i hpop
        simp only [List.length_dropLast]
        omega
      · rename_i hpop
        rw [h1look] at hpop
        omega

/-- C2 (amended): for every detector constructed with
`lookahead_distance ≥ 5`, the cost-history length never exceeds
`5 + lookahead_distance` after any number of calls. -/
theorem C2_capacity (dsf : Nat → Plane → Plane) (bd d w h mn mx : Nat)
    (hd : 5 ≤ d) (s : SceneChangeDetector)
    (hr : Reaches (SceneChangeDetector.new dsf bd d w h mn mx) s) :
    s.score_deque.length ≤ 5 + d := by
  have hinv : Inv s := by
    induction hr with
    | refl => exact inv_new dsf bd d w h mn mx hd
    | step hr' hstep ih => exact inv_step ih hstep
  have := hinv.2.2.1
  omega

/-- Counterexample to C2 as stated: a detector with `lookahead_distance = 0`
whose first call gets an 8-frame window ends the call with 7 entries in the
cost history, exceeding `5 + lookahead_distance = 5`. -/
theorem C2_counterexample :
    ((smallDet.analyze_next_frame [[0], [0], [0], [0], [0], [0], [0], [0]] 1 0).map
      (fun r => r.2.score_deque.length)) = some 7 ∧ 5 + 0 < 7 := by
  constructor
  · norm_num [smallDet, SceneChangeDetector.new, SceneChangeDetector.analyze_next_frame,
      SceneChangeDetector.update_state, SceneChangeDetector.init_phase,
      SceneChangeDetector.initialize_score_deque, init_score_aux,
      SceneChangeDetector.compare_or_shrink, SceneChangeDetector.run_comparison,
      SceneChangeDetector.fast_scenecut, SceneChangeDetector.delta_in_planes,
      SceneChangeDetector.adaptive_scenecut, SceneChangeDetector.imp_block_threshold,
      SceneChangeDetector.handle_min_max_intervals, checked_sub, sad_plane,
      detect_scale_factor, fast_idiv, IMP_BLOCK_DIFF_THRESHOLD, FAST_THRESHOLD,
      SceneChangeDetector.back_over_tr_count, SceneChangeDetector.forward_over_tr_count,
      SceneChangeDetector.back_deque, SceneChangeDetector.forward_deque,
      front_over_forward]
  · omega

/-- Witness for C2 at a concrete detector (zero calls). -/
theorem C2_capacity_witness :
    (SceneChangeDetector.new dsfId 8 5 16 16 0 10).score_deque.length ≤ 5 + 5 :=
  C2_capacity dsfId 8 5 16 16 0 10 (by decide)
    (SceneChangeDetector.new dsfId 8 5 16 16 0 10) Reaches.refl

end AvSc
